import Mathlib

/-!
Shallow embedding of the Tanjun command-dispatch layer (crazygmr101/Tanjun):
`tanjun/clients.py`, `tanjun/components.py` and `tanjun/conversion.py`.

Conventions of the embedding:
* Python sets iterated in unspecified order are modelled as `List`s (the
  iteration order becomes a parameter of the model).
* `async` control flow is sequentialised; an awaited callable is modelled by
  its returned value (or by the exception it raises, as an explicit
  constructor).
* Exceptions are modelled with `Except` or with explicit outcome
  constructors.
-/

namespace Tanjun

/-! ## Message dispatch (`Client.on_message_create_event`, clients.py 981-1015) -/

/-- The observable behaviour of one `component.execute_message(ctx, hooks=hooks)`
call inside the dispatch loop of `Client.on_message_create_event`: it returns a
boolean, or raises `errors.HaltExecution`, or raises `errors.CommandError`. -/
inductive ComponentResult where
  | ok (found : Bool)
  | halt
  | commandError (message : String)
deriving DecidableEq

/-- How the `for component in self._components` loop of
`Client.on_message_create_event` (clients.py 1003-1013) ends. -/
inductive LoopOutcome where
  | found
  | halted
  | errored (message : String)
  | exhausted
deriving DecidableEq

/-- The component loop of `Client.on_message_create_event`: stop (`break`) at
the first component whose `execute_message` returns a truthy value; a raised
`HaltExecution` or `CommandError` also ends the loop. -/
def execute_components : List ComponentResult → LoopOutcome
  | [] => .exhausted
  | .ok true :: _ => .found
  | .ok false :: rest => execute_components rest
  | .halt :: _ => .halted
  | .commandError m :: _ => .errored m

/-- Python `str.startswith`, as used on message content against each prefix:
character-level list prefix test. -/
def pyStartsWith (content p : String) : Bool :=
  p.data.isPrefixOf content.data

/-- `Client._check_prefix` (clients.py 846-856): when a prefix getter is set,
try each prefix it returned, in order, against the content; then fall back to
the client's static prefixes; `None` when nothing matches.  The getter being
set is modelled as `some ps` where `ps` is the iterable it returned. -/
def prefixCheck (getter : Option (List String)) (prefixes : List String)
    (content : String) : Option String :=
  match (getter.getD []).find? (fun p => pyStartsWith content p) with
  | some p => some p
  | none => prefixes.find? (fun p => pyStartsWith content p)

/-- The part of the client state which `Client.on_message_create_event` reads:
the prefix getter (with the prefixes it would return for this context), the
static prefixes, the boolean results of the client-level checks on this
context, and the behaviour of each component in iteration order. -/
structure MsgClientState where
  prefixGetter : Option (List String)
  prefixes : List String
  checks : List Bool
  components : List ComponentResult
deriving DecidableEq

/-- The observable outcome of `Client.on_message_create_event` for one event:
the response sent via `ctx.respond` (if any), whether the
`MESSAGE_COMMAND_NOT_FOUND` client callback was dispatched, and whether some
component reported that it executed a command. -/
structure MsgResult where
  response : Option String
  notFoundFired : Bool
  commandExecuted : Bool
deriving DecidableEq

/-- `Client.on_message_create_event` (clients.py 981-1015).  `content` is
`event.message.content` (`none` models Python `None`).  The client-level check
gate `await self.check(ctx)` AND-combines the checks (`utilities.gather_checks`;
the `utilities` module is a collaborator, its AND semantics is taken from the
spec).  Note that after the component loop the method falls through to
`dispatch_client_callback(MESSAGE_COMMAND_NOT_FOUND)` on every path except the
`CommandError` one: also when a component reported `True` (the loop ends by
`break`, not `return`) and when a `HaltExecution` was swallowed. -/
def on_message_create_event (content : Option String) (st : MsgClientState) :
    MsgResult :=
  match content with
  | none => ⟨none, false, false⟩
  | some c =>
    match prefixCheck st.prefixGetter st.prefixes c with
    | none => ⟨none, false, false⟩
    | some _ =>
      if st.checks.all id then
        match execute_components st.components with
        | .errored m => ⟨some m, false, false⟩
        | .found => ⟨none, true, true⟩
        | .halted => ⟨none, true, false⟩
        | .exhausted => ⟨none, true, false⟩
      else ⟨none, false, false⟩

/-! ## Client lifecycle (`Client.open` / `Client.close`, clients.py 870-931) -/

/-- The outcome of one `self._rest.fetch_my_user()` call inside `Client.open`:
the fetched user (its id), or a raised `hikari.RateLimitedError` /
`hikari.RateLimitTooLongError` (carrying `retry_after` seconds), or a raised
`hikari.InternalServerError`. -/
inductive FetchOutcome where
  | ok (userId : Nat)
  | rateLimited (retryAfter : ℚ)
  | internalServerError
deriving DecidableEq

/-- An exception propagating out of the mention-prefix acquisition step. -/
inductive FetchError where
  | rateLimited (retryAfter : ℚ)
  | internalServerError
deriving DecidableEq

/-- Errors raised by `Client.open` / `Client.close`: "Client is already alive"
(clients.py 887), "Client isn't active" (clients.py 872), or an exception from
the mention-prefix acquisition step. -/
inductive ClientError where
  | alreadyAlive
  | notActive
  | fetchFailed (e : FetchError)
deriving DecidableEq

/-- The retry loop of `Client.open` (clients.py 897-914).  The external
`yuyo.backoff.Backoff(max_retries=4, maximum=30)` iterator yields four times
and is then exhausted, upon which the `for`-`else` clause performs one final
unguarded `fetch_my_user` call.  `script k` is the outcome of the `k`-th REST
call.  In the guarded attempts, a rate limit with `retry_after > 30` is
re-raised, a rate limit with `retry_after <= 30` sets the next backoff and
retries, and an internal server error retries (`continue`). -/
def fetchGo (script : Nat → FetchOutcome) : Nat → Nat → Except FetchError Nat
  | 0, k =>
    match script k with
    | .ok uid => .ok uid
    | .rateLimited r => .error (.rateLimited r)
    | .internalServerError => .error .internalServerError
  | n + 1, k =>
    match script k with
    | .ok uid => .ok uid
    | .rateLimited r =>
      if 30 < r then .error (.rateLimited r) else fetchGo script n (k + 1)
    | .internalServerError => fetchGo script n (k + 1)

/-- The whole `async for _ in retry: ... else: ...` block of `Client.open`:
four guarded attempts, then a final unguarded fetch. -/
def fetch_my_user_with_retry (script : Nat → FetchOutcome) :
    Except FetchError Nat :=
  fetchGo script 4 0

/-- Python `set.add` on the client's prefix set, with the set modelled as a
duplicate-free list in iteration order. -/
def prefixInsert (prefixes : List String) (p : String) : List String :=
  if p ∈ prefixes then prefixes else prefixes ++ [p]

/-- The part of the client state which `Client.open` / `Client.close` touch:
`_is_alive`, `_grab_mention_prefix`, the cached own user (`_cache.get_me()`,
`none` when there is no cache or it misses) and `_prefixes`. -/
structure OpenState where
  isAlive : Bool
  grabMention : Bool
  cachedUser : Option Nat
  prefixes : List String
deriving DecidableEq

/-- Clients.py 916-918: add the two mention-prefix variants `<@id>` and
`<@!id>` to the prefix set and clear `_grab_mention_prefix`. -/
def addMentionPrefixes (s : OpenState) (uid : Nat) : OpenState :=
  { s with
      prefixes :=
        prefixInsert (prefixInsert s.prefixes ("<@" ++ toString uid ++ ">"))
          ("<@!" ++ toString uid ++ ">"),
      grabMention := false }

/-- `Client.open` (clients.py 885-931), restricted to the state it mutates:
raise if already alive; mark alive; when `_grab_mention_prefix` is set, resolve
the own user (cache first, else REST with retry) and add the two mention
prefixes.  Listener registration and the STARTING/STARTED callbacks do not
touch this state and are omitted.  Note `_is_alive = True` is assigned before
the acquisition step, so a propagating fetch error leaves the client alive;
the `Except` result carries only the error in that case. -/
def clientOpen (s : OpenState) (script : Nat → FetchOutcome) :
    Except ClientError OpenState :=
  if s.isAlive then .error .alreadyAlive
  else
    let s1 : OpenState := { s with isAlive := true }
    if s1.grabMention then
      match s1.cachedUser with
      | some uid => .ok (addMentionPrefixes s1 uid)
      | none =>
        match fetch_my_user_with_retry script with
        | .ok uid => .ok (addMentionPrefixes s1 uid)
        | .error e => .error (.fetchFailed e)
    else .ok s1

/-- `Client.close` (clients.py 870-883), restricted to the state it mutates:
raise "Client isn't active" when not alive; otherwise dispatch the
CLOSING/CLOSED callbacks and deregister listeners.  The method never assigns
`self._is_alive`, so the returned state is unchanged. -/
def clientClose (s : OpenState) : Except ClientError OpenState :=
  if !s.isAlive then .error .notActive else .ok s

/-- A client as constructed by `Client.__init__`: not alive, here with
mention-prefix acquisition disabled and no prefixes. -/
def freshClient : OpenState := ⟨false, false, none, []⟩

/-! ## `Component.execute` (components.py 233-254) -/

/-- A `Component` as read by `Component.execute`: the `started` flag, the
component-level checks (each a predicate on the context, here its content) and
the owned commands, each modelled by its `check_context` outcome: the matched
trigger name on this context, or `none`. -/
structure ComponentModel where
  started : Bool
  checks : List (String → Bool)
  commands : List (String → Option String)

/-- The first command yielded by `Component.check_context`, together with the
number of commands consulted to find it (all of them when no command
matches). -/
def firstCommandMatch : List (String → Option String) → String →
    Option String × Nat
  | [], _ => (none, 0)
  | f :: rest, content =>
    match f content with
    | some name => (some name, 1)
    | none =>
      let r := firstCommandMatch rest content
      (r.1, r.2 + 1)

/-- `Component.execute` (components.py 233-254), instrumented: the returned
boolean, the number of component checks evaluated, and the number of commands
consulted.  A not-yet-started component returns `False` immediately;
otherwise `check_context` gathers all component checks (AND-combined) and, when
they pass, consults commands until the first match, which is executed. -/
def componentExecute (c : ComponentModel) (content : String) :
    Bool × Nat × Nat :=
  if c.started then
    if c.checks.all (fun f => f content) then
      let r := firstCommandMatch c.commands content
      (r.1.isSome, c.checks.length, r.2)
    else (false, c.checks.length, 0)
  else (false, 0, 0)

/-! ## `Component.open` / `Component.close` (components.py 206-231) -/

/-- A `Component` as read by `Component.open`/`Component.close`: the `started`
flag, whether a client is bound, the component's listeners and the bound
client dispatcher's subscription list (listeners identified by ids). -/
structure ComponentState where
  started : Bool
  hasClient : Bool
  listeners : List Nat
  subs : List Nat
deriving DecidableEq

/-- `Component.close` (components.py 206-213): a no-op when not started;
otherwise clear `started` and unsubscribe every listener from the bound
client's dispatcher. -/
def componentClose (c : ComponentState) : ComponentState :=
  if !c.started then c
  else
    { c with
        started := false
        subs :=
          if c.hasClient then c.listeners.foldl (fun s l => s.erase l) c.subs
          else c.subs }

/-- `Component.open` (components.py 215-231): a no-op when already started;
otherwise, for each listener, try to unsubscribe it (on a lookup failure,
`continue` — skipping the subscribe) and re-subscribe it, then set
`started`. -/
def componentOpen (c : ComponentState) : ComponentState :=
  if c.started then c
  else
    { c with
        started := true
        subs :=
          if c.hasClient then
            c.listeners.foldl
              (fun s l => if l ∈ s then s.erase l ++ [l] else s) c.subs
          else c.subs }

/-! ## Interaction direct-request entry point
(`Client.on_interaction_create_request`, clients.py 1068-1109) -/

/-- The observable behaviour of one `component.execute_interaction` call in
the loop of `Client.on_interaction_create_request`: a truthy return (a command
was found, its execution will produce the response), a falsy return, a raised
`HaltExecution`, or a raised `CommandError`. -/
inductive SlashComponentResult where
  | found
  | pass
  | halt
  | commandError (message : String)
deriving DecidableEq

/-- How the component loop of `Client.on_interaction_create_request` ends. -/
inductive SlashLoopOutcome where
  | found
  | halted
  | errored (message : String)
  | exhausted
deriving DecidableEq

/-- The component loop of `Client.on_interaction_create_request`
(clients.py 1088-1090). -/
def execute_interaction_components :
    List SlashComponentResult → SlashLoopOutcome
  | [] => .exhausted
  | .found :: _ => .found
  | .pass :: rest => execute_interaction_components rest
  | .halt :: _ => .halted
  | .commandError m :: _ => .errored m

/-- Modelled from the spec: the `context.SlashContext` response future (the
`context` module is not among the sources; only its call sites are).  Per the
spec, `ctx.get_response_future()` returns a future which the context resolves
when a response is produced; `resolutions` counts how often it is resolved and
`response` is the payload it was resolved with. -/
structure SlashCtx where
  resolutions : Nat
  response : Option String
deriving DecidableEq

/-- Modelled from the spec: `ctx.respond(message)` produces a response,
resolving the response future. -/
def slashRespond (ctx : SlashCtx) (message : String) : SlashCtx :=
  ⟨ctx.resolutions + 1, some message⟩

/-- Modelled from the spec: `ctx.mark_not_found()` produces the structured
not-found response (the client's configured not-found message), resolving the
response future. -/
def slashMarkNotFound (notFoundMessage : Option String) (ctx : SlashCtx) :
    SlashCtx :=
  ⟨ctx.resolutions + 1, notFoundMessage⟩

/-- Modelled from the spec: a component that found a command executes it, and
that execution produces the response which resolves the response future. -/
def slashResolveByCommand (ctx : SlashCtx) : SlashCtx :=
  ⟨ctx.resolutions + 1, ctx.response⟩

/-- Modelled from the spec: the auto-defer timer started by
`ctx.start_defer_timer(self._auto_defer_after)` (clients.py 1082-1083) races
execution; when no response has started within the window it issues the
intermediate "thinking" deferral response, resolving the response future.  It
is not started at all when auto-defer is disabled
(`set_auto_defer_after(None)`, clients.py 589-602). -/
def slashDeferTimer (ctx : SlashCtx) : SlashCtx :=
  ⟨ctx.resolutions + 1, ctx.response⟩

/-- The `callback` of clients.py 1102-1108: an `async def` is passed to
`Task.add_done_callback`, so when the `SLASH_COMMAND_NOT_FOUND` dispatch task
finishes, the event loop calls it and gets back a coroutine object which is
never awaited — the body (`await ctx.mark_not_found()`; `ctx.cancel_defer()`)
never executes, and the context is left unchanged. -/
def notFoundDoneCallback (ctx : SlashCtx) : SlashCtx :=
  ctx

/-- `Client.on_interaction_create_request` (clients.py 1068-1109), tracking
the response future: a fresh context is built and, when auto-defer is
enabled, the deferral timer is started; when a component reports that it
found a command, the handler returns `await future` (resolved by that
execution, which also cancels the timer); on `CommandError` a
`ctx.respond(exc.message)` task resolves it; on `HaltExecution` or loop
exhaustion the `SLASH_COMMAND_NOT_FOUND` dispatch task's done-callback (an
unawaited `async def`, see `notFoundDoneCallback`) runs nothing, so only the
auto-defer timer — when enabled — resolves the future before the handler's
`return await future`. -/
def on_interaction_create_request (autoDefer : Bool)
    (_notFoundMessage : Option String)
    (components : List SlashComponentResult) : SlashCtx :=
  let ctx : SlashCtx := ⟨0, none⟩
  match execute_interaction_components components with
  | .found => slashResolveByCommand ctx
  | .errored m => slashRespond ctx m
  | .halted =>
    let ctx := notFoundDoneCallback ctx
    if autoDefer then slashDeferTimer ctx else ctx
  | .exhausted =>
    let ctx := notFoundDoneCallback ctx
    if autoDefer then slashDeferTimer ctx else ctx

/-! ## Lifecycle callback dispatch
(`Client.dispatch_client_callback`, clients.py 785-792, and
`_wrap_client_callback`, clients.py 159-175) -/

/-- Python `str.lower` on an event name, restricted to the ASCII letters used
by the client callback names. -/
def lowerChar (c : Char) : Char :=
  if 65 ≤ c.toNat ∧ c.toNat ≤ 90 then Char.ofNat (c.toNat + 32) else c

/-- Python `str.lower` applied to a whole event name. -/
def lowerStr (s : String) : String := ⟨s.data.map lowerChar⟩

/-- The behaviour of one registered client callback when invoked (and, for an
async one, awaited): it returns, or raises an exception with a message. -/
inductive CbResult where
  | ok
  | err (message : String)
deriving DecidableEq

/-- `_wrap_client_callback` (clients.py 159-175): call the callback; on an
exception, log it when `suppress_exceptions` is true, else re-raise.  The
result is the pair (logged message, raised message). -/
def wrap_client_callback (suppress : Bool) (r : CbResult) :
    Option String × Option String :=
  match r with
  | .ok => (none, none)
  | .err m => if suppress then (some m, none) else (none, some m)

/-- `self._client_callbacks.get(event_name)`: the registry is a map keyed by
the lower-cased event name (`add_client_callback` lowercases on insertion,
clients.py 775-783); each registered callback is modelled by its `CbResult`. -/
def lookupCallbacks : List (String × List CbResult) → String →
    Option (List CbResult)
  | [], _ => none
  | (k, v) :: rest, key => if k = key then some v else lookupCallbacks rest key

/-- The observable outcome of one `dispatch_client_callback` call: how many of
the registered callbacks were invoked, the logged (suppressed) exception
messages, and the exception propagated to the caller, if any. -/
structure DispatchResult where
  invoked : Nat
  logged : List String
  raised : Option String
deriving DecidableEq

/-- The exception messages among a list of callback results, in order. -/
def errMessages (cbs : List CbResult) : List String :=
  cbs.filterMap fun r =>
    match r with
    | .ok => none
    | .err m => some m

/-- `Client.dispatch_client_callback` (clients.py 785-792): lower-case the
event name, look the callbacks up, and `asyncio.gather` the wrapped callbacks.
The gather is modelled by running every wrapped callback and then surfacing
the first un-suppressed exception: all callbacks are invoked regardless of
failures. -/
def dispatch_client_callback (callbacks : List (String × List CbResult))
    (eventName : String) (suppress : Bool) : DispatchResult :=
  match lookupCallbacks callbacks (lowerStr eventName) with
  | none => ⟨0, [], none⟩
  | some cbs =>
    let results := cbs.map (wrap_client_callback suppress)
    ⟨cbs.length, results.filterMap Prod.fst,
      (results.filterMap Prod.snd).head?⟩

/-! ## Snowflake parsing (`_BaseSnowflakeParser.match_id`, conversion.py 361-377) -/

/-- Python `str.isdigit` on the values fed to `match_id`: non-empty and all
digits. -/
def isPyDigit (value : String) : Bool :=
  !value.isEmpty && value.data.all Char.isDigit

/-- Python `int(value)` / `hikari.Snowflake(value)` on a digit string. -/
def digitsToNat (value : String) : Nat :=
  value.data.foldl (fun n c => n * 10 + (c.toNat - 48)) 0

/-- `_BaseSnowflakeParser.match_id` (conversion.py 370-377).  `findCapture`
is `cls.regex().findall(value)[0]` when the subclass's mention pattern has a
match in `value` (its first capture group, a digit string), else `none`; the
pattern varies per subclass (`<[@&?!#]{1,3}(\d+)>`, `<#(\d+)>`,
`<a?:\w+:(\d+)>`, `<@!?(\d+)>`), so it is a parameter here. -/
def match_id (findCapture : String → Option String) (value : String) :
    Except String Nat :=
  if isPyDigit value then .ok (digitsToNat value)
  else
    match findCapture value with
    | some d => .ok (digitsToNat d)
    | none => .error "No valid mention or ID found"

end Tanjun

/-! ## Claims about message dispatch -/

/-- C1: the claim states that command execution and the
`MESSAGE_COMMAND_NOT_FOUND` callback are mutually exclusive outcomes of
`Client.on_message_create_event`.  The code violates this: with prefix `!`, no
client checks and a single component that finds and executes a command for
`!ping`, the loop `break`s and then still falls through to the not-found
dispatch, so the event both executes a command and fires the callback. -/
theorem C1_executed_command_still_fires_not_found :
    Tanjun.on_message_create_event (some "!ping")
      ⟨none, ["!"], [], [Tanjun.ComponentResult.ok true]⟩
      = ⟨none, true, true⟩ := by
  decide

/-- C2 counterexample: the claim states that a message matching no configured
prefix fires the `MESSAGE_COMMAND_NOT_FOUND` callback.  With static prefix `!`
and content `ping`, `on_message_create_event` returns without dispatching any
client callback (clients.py 986-987 is a bare `return`), so the callback does
not fire. -/
theorem C2_no_prefix_counterexample :
    (Tanjun.on_message_create_event (some "ping")
      ⟨none, ["!"], [], [Tanjun.ComponentResult.ok true]⟩).notFoundFired
      = false := by
  decide

/-- C2 amended: for every message event whose content starts with no configured
prefix (neither one returned by the prefix getter nor a static one), dispatch
stops, sends no response, and does NOT fire the `MESSAGE_COMMAND_NOT_FOUND`
callback: the event is silently ignored. -/
theorem C2_no_prefix_silent (content : String) (st : Tanjun.MsgClientState)
    (h : Tanjun.prefixCheck st.prefixGetter st.prefixes content = none) :
    Tanjun.on_message_create_event (some content) st = ⟨none, false, false⟩ := by
  simp [Tanjun.on_message_create_event, h]

/-- C2 amended, witness at content `ping`, static prefixes `["!"]`. -/
theorem C2_no_prefix_silent_witness :
    Tanjun.on_message_create_event (some "ping")
      ⟨none, ["!"], [true], [Tanjun.ComponentResult.ok true]⟩
      = ⟨none, false, false⟩ :=
  C2_no_prefix_silent "ping" ⟨none, ["!"], [true], [Tanjun.ComponentResult.ok true]⟩
    (by decide)

/-- C5: for every message event that matched a prefix, if some client-level
check fails (the AND-combined gate is false), dispatch terminates with no
response and without firing `MESSAGE_COMMAND_NOT_FOUND` — observably distinct
from the not-found outcome, which has `notFoundFired = true`. -/
theorem C5_failed_global_check_is_silent (content p : String)
    (st : Tanjun.MsgClientState)
    (h1 : Tanjun.prefixCheck st.prefixGetter st.prefixes content = some p)
    (h2 : st.checks.all id = false) :
    Tanjun.on_message_create_event (some content) st = ⟨none, false, false⟩ := by
  simp [Tanjun.on_message_create_event, h1, h2]

/-- C5 witness: prefix `!` matches `!ping`, one always-failing global check. -/
theorem C5_failed_global_check_is_silent_witness :
    Tanjun.on_message_create_event (some "!ping")
      ⟨none, ["!"], [false], [Tanjun.ComponentResult.ok true]⟩
      = ⟨none, false, false⟩ :=
  C5_failed_global_check_is_silent "!ping" "!"
    ⟨none, ["!"], [false], [Tanjun.ComponentResult.ok true]⟩
    (by decide) (by decide)

/-! ## Claims about the client lifecycle -/

/-- C3: the claim states that double-close without an intervening open is an
error and that `is_alive` transitions only via `open`/`close`.  The code
violates this: `Client.close` never resets `_is_alive`, so after
`open(); close()` a second `close()` succeeds instead of raising — and a
subsequent `open()` still raises "Client is already alive" despite the
intervening close. -/
theorem C3_close_never_clears_is_alive :
    ((Tanjun.clientOpen Tanjun.freshClient (fun _ => .ok 0)).bind fun s1 =>
        (Tanjun.clientClose s1).bind fun s2 => Tanjun.clientClose s2) =
      .ok ⟨true, false, none, []⟩
    ∧ ((Tanjun.clientOpen Tanjun.freshClient (fun _ => .ok 0)).bind fun s1 =>
        (Tanjun.clientClose s1).bind fun s2 =>
          Tanjun.clientOpen s2 (fun _ => .ok 0)) =
      .error .alreadyAlive :=
  ⟨rfl, rfl⟩

/-- The retry loop consults only the outcomes of the REST calls it makes:
`fetchGo script n k` reads `script` only on the indices `k ≤ j ≤ k + n`. -/
theorem fetchGo_ext (s1 s2 : Nat → Tanjun.FetchOutcome) :
    ∀ n k, (∀ j, k ≤ j → j ≤ k + n → s1 j = s2 j) →
      Tanjun.fetchGo s1 n k = Tanjun.fetchGo s2 n k
  | 0, k, h => by
    have hk : s1 k = s2 k := h k (Nat.le_refl k) (Nat.le_add_right k 0)
    simp only [Tanjun.fetchGo, hk]
  | n + 1, k, h => by
    have hk : s1 k = s2 k := h k (Nat.le_refl k) (Nat.le_add_right _ _)
    have ih : Tanjun.fetchGo s1 n (k + 1) = Tanjun.fetchGo s2 n (k + 1) :=
      fetchGo_ext s1 s2 n (k + 1) (fun j hj1 hj2 => h j (by omega) (by omega))
    simp only [Tanjun.fetchGo, hk, ih]

/-- C8: opening a client with mention-prefix acquisition enabled and no cached
own user fetches the user over REST under a fixed retry budget (the outcome is
determined by the first five REST call outcomes), re-raises a rate limit whose
wait exceeds the 30-second ceiling, and on success adds exactly the two
mention-prefix variants `<@id>` and `<@!id>` to the prefix set. -/
theorem C8_mention_acquisition (s : Tanjun.OpenState)
    (script script2 : Nat → Tanjun.FetchOutcome) (r : ℚ) (uid : Nat)
    (h1 : s.isAlive = false) (h2 : s.grabMention = true)
    (h3 : s.cachedUser = none) :
    (script 0 = .rateLimited r → 30 < r →
      Tanjun.clientOpen s script = .error (.fetchFailed (.rateLimited r)))
    ∧ ((∀ k, k ≤ 4 → script k = script2 k) →
      Tanjun.clientOpen s script = Tanjun.clientOpen s script2)
    ∧ (Tanjun.fetch_my_user_with_retry script = .ok uid →
      Tanjun.clientOpen s script =
        .ok { s with
                isAlive := true
                grabMention := false
                prefixes :=
                  Tanjun.prefixInsert
                    (Tanjun.prefixInsert s.prefixes ("<@" ++ toString uid ++ ">"))
                    ("<@!" ++ toString uid ++ ">") }) := by
  refine ⟨?_, ?_, ?_⟩
  · intro hs hr
    simp [Tanjun.clientOpen, h1, h2, h3, Tanjun.fetch_my_user_with_retry,
      Tanjun.fetchGo, hs, hr]
  · intro hk
    have he : Tanjun.fetch_my_user_with_retry script =
        Tanjun.fetch_my_user_with_retry script2 := by
      unfold Tanjun.fetch_my_user_with_retry
      exact fetchGo_ext script script2 4 0 (fun j hj1 hj2 => hk j (by omega))
    simp only [Tanjun.clientOpen, h1, h2, h3, he]
  · intro hok
    simp [Tanjun.clientOpen, h1, h2, h3, hok, Tanjun.addMentionPrefixes]

/-- C8 witness: a first rate limit of 31 seconds propagates; an immediately
successful fetch for user 7 adds `<@7>` and `<@!7>`. -/
theorem C8_mention_acquisition_witness :
    Tanjun.clientOpen ⟨false, true, none, []⟩ (fun _ => .rateLimited 31) =
      .error (.fetchFailed (.rateLimited 31))
    ∧ Tanjun.clientOpen ⟨false, true, none, []⟩ (fun _ => .ok 7) =
      .ok ⟨true, false, none, ["<@7>", "<@!7>"]⟩ :=
  ⟨(C8_mention_acquisition ⟨false, true, none, []⟩ (fun _ => .rateLimited 31)
      (fun _ => .rateLimited 31) 31 0 rfl rfl rfl).1 rfl (by norm_num),
   ((C8_mention_acquisition ⟨false, true, none, []⟩ (fun _ => .ok 7)
      (fun _ => .ok 7) 0 7 rfl rfl rfl).2.2 rfl).trans rfl⟩

/-! ## Claims about components and the interaction entry point -/

/-- C4: for every component with `started == false` and every context,
`Component.execute` returns `False` having evaluated none of the component's
checks and consulted none of its commands. -/
theorem C4_not_started_executes_nothing (c : Tanjun.ComponentModel)
    (content : String) (h : c.started = false) :
    Tanjun.componentExecute c content = (false, 0, 0) := by
  simp [Tanjun.componentExecute, h]

/-- C4 witness: a stopped component with an always-true check and an
always-matching command still contributes `(false, 0, 0)`. -/
theorem C4_not_started_executes_nothing_witness :
    Tanjun.componentExecute
      ⟨false, [fun _ => true], [fun _ => some "ping"]⟩ "ping" =
      (false, 0, 0) :=
  C4_not_started_executes_nothing
    ⟨false, [fun _ => true], [fun _ => some "ping"]⟩ "ping" rfl

/-- C10: `Component.open` on an already-started component and
`Component.close` on a not-started component are both no-ops: no error, and
the `started` flag and the subscription state are left unchanged — in
contrast with `Client.open`, which raises when the client is already alive,
and `Client.close`, which raises when it is not alive. -/
theorem C10_component_open_close_idempotent (c c2 : Tanjun.ComponentState)
    (h1 : c.started = true) (h2 : c2.started = false) :
    Tanjun.componentOpen c = c
    ∧ Tanjun.componentClose c2 = c2
    ∧ (∀ (s : Tanjun.OpenState) (script : Nat → Tanjun.FetchOutcome),
        s.isAlive = true → Tanjun.clientOpen s script = .error .alreadyAlive)
    ∧ (∀ s : Tanjun.OpenState,
        s.isAlive = false → Tanjun.clientClose s = .error .notActive) := by
  refine ⟨?_, ?_, ?_, ?_⟩
  · simp [Tanjun.componentOpen, h1]
  · simp [Tanjun.componentClose, h2]
  · intro s script hs
    simp [Tanjun.clientOpen, hs]
  · intro s hs
    simp [Tanjun.clientClose, hs]

/-- C10 witness: concrete started/stopped components are left unchanged, and
the client counterparts raise. -/
theorem C10_component_open_close_idempotent_witness :
    Tanjun.componentOpen ⟨true, true, [1], [1]⟩ = ⟨true, true, [1], [1]⟩
    ∧ Tanjun.componentClose ⟨false, true, [1], []⟩ = ⟨false, true, [1], []⟩
    ∧ Tanjun.clientOpen ⟨true, false, none, []⟩ (fun _ => .ok 0) =
        .error .alreadyAlive
    ∧ Tanjun.clientClose ⟨false, false, none, []⟩ = .error .notActive := by
  have h := C10_component_open_close_idempotent
    ⟨true, true, [1], [1]⟩ ⟨false, true, [1], []⟩ rfl rfl
  exact ⟨h.1, h.2.1, h.2.2.1 ⟨true, false, none, []⟩ (fun _ => .ok 0) rfl,
    h.2.2.2 ⟨false, false, none, []⟩ rfl⟩

/-- C6: the claim states that `Client.on_interaction_create_request` resolves
its returned response future exactly once on every exit path, never zero
times.  The code violates this on the not-found paths: the `async def` passed
to `Task.add_done_callback` (clients.py 1102-1108) yields an unawaited
coroutine, so `ctx.mark_not_found()` never runs; with auto-defer disabled the
future is resolved zero times (the caller awaiting it deadlocks), both when
no component matches and when a `HaltExecution` is swallowed, and only the
auto-defer timer rescues the path when it is enabled.  The found and
command-error paths do resolve exactly once. -/
theorem C6_not_found_path_unresolved_future :
    (Tanjun.on_interaction_create_request false (some "Command not found")
      []).resolutions = 0
    ∧ (Tanjun.on_interaction_create_request false (some "Command not found")
      [.halt]).resolutions = 0
    ∧ (Tanjun.on_interaction_create_request true (some "Command not found")
      []).resolutions = 1
    ∧ (Tanjun.on_interaction_create_request false (some "Command not found")
      [.found]).resolutions = 1
    ∧ (Tanjun.on_interaction_create_request false (some "Command not found")
      [.commandError "bad args"]).resolutions = 1 :=
  ⟨rfl, rfl, rfl, rfl, rfl⟩

/-! ## Claims about callback dispatch and ID parsing -/

/-- The logged messages of the wrapped callbacks: all exception messages when
suppressing, none otherwise. -/
theorem wrap_logged (suppress : Bool) (cbs : List Tanjun.CbResult) :
    (cbs.map (Tanjun.wrap_client_callback suppress)).filterMap Prod.fst =
      if suppress then Tanjun.errMessages cbs else [] := by
  induction cbs with
  | nil => cases suppress <;> simp [Tanjun.errMessages]
  | cons r rest ih =>
    cases suppress <;> cases r <;>
      simp_all [Tanjun.wrap_client_callback, Tanjun.errMessages]

/-- The raised messages of the wrapped callbacks: none when suppressing, all
exception messages otherwise. -/
theorem wrap_raised (suppress : Bool) (cbs : List Tanjun.CbResult) :
    (cbs.map (Tanjun.wrap_client_callback suppress)).filterMap Prod.snd =
      if suppress then [] else Tanjun.errMessages cbs := by
  induction cbs with
  | nil => cases suppress <;> simp [Tanjun.errMessages]
  | cons r rest ih =>
    cases suppress <;> cases r <;>
      simp_all [Tanjun.wrap_client_callback, Tanjun.errMessages]

/-- C7: `dispatch_client_callback` matches the event name case-insensitively
(two names with the same lower-casing dispatch identically), invokes every
callback registered under it; when `suppress_exceptions` is true each failing
callback is logged and nothing propagates, and when it is false the first
failure propagates while all callbacks have still been invoked. -/
theorem C7_dispatch_client_callback
    (callbacks : List (String × List Tanjun.CbResult)) (n1 n2 : String)
    (suppress : Bool) (cbs : List Tanjun.CbResult)
    (hname : Tanjun.lowerStr n1 = Tanjun.lowerStr n2)
    (hreg : Tanjun.lookupCallbacks callbacks (Tanjun.lowerStr n1) = some cbs) :
    Tanjun.dispatch_client_callback callbacks n1 suppress =
      Tanjun.dispatch_client_callback callbacks n2 suppress
    ∧ (Tanjun.dispatch_client_callback callbacks n1 suppress).invoked =
      cbs.length
    ∧ (suppress = true →
        (Tanjun.dispatch_client_callback callbacks n1 suppress).raised = none
        ∧ (Tanjun.dispatch_client_callback callbacks n1 suppress).logged =
          Tanjun.errMessages cbs)
    ∧ (suppress = false →
        (Tanjun.dispatch_client_callback callbacks n1 suppress).raised =
          (Tanjun.errMessages cbs).head?
        ∧ (Tanjun.dispatch_client_callback callbacks n1 suppress).invoked =
          cbs.length) := by
  have hval : Tanjun.dispatch_client_callback callbacks n1 suppress =
      ⟨cbs.length,
        (cbs.map (Tanjun.wrap_client_callback suppress)).filterMap Prod.fst,
        ((cbs.map (Tanjun.wrap_client_callback suppress)).filterMap
          Prod.snd).head?⟩ := by
    unfold Tanjun.dispatch_client_callback
    rw [hreg]
  refine ⟨?_, ?_, ?_, ?_⟩
  · unfold Tanjun.dispatch_client_callback
    rw [hname]
  · rw [hval]
  · intro hs
    subst hs
    rw [hval, wrap_raised, wrap_logged]
    exact ⟨rfl, rfl⟩
  · intro hs
    subst hs
    rw [hval, wrap_raised]
    exact ⟨rfl, rfl⟩

/-- C7 witness: the registry holds `message_command_not_found` with one
succeeding and one failing callback; dispatching under two differently-cased
names agrees, both callbacks are invoked, and with suppression the failure is
logged, not raised. -/
theorem C7_dispatch_client_callback_witness :
    Tanjun.dispatch_client_callback
        [("message_command_not_found", [.ok, .err "boom"])]
        "Message_Command_Not_Found" true =
      Tanjun.dispatch_client_callback
        [("message_command_not_found", [.ok, .err "boom"])]
        "MESSAGE_COMMAND_NOT_FOUND" true
    ∧ (Tanjun.dispatch_client_callback
        [("message_command_not_found", [.ok, .err "boom"])]
        "Message_Command_Not_Found" true).invoked = 2
    ∧ (Tanjun.dispatch_client_callback
        [("message_command_not_found", [.ok, .err "boom"])]
        "Message_Command_Not_Found" true).raised = none
    ∧ (Tanjun.dispatch_client_callback
        [("message_command_not_found", [.ok, .err "boom"])]
        "Message_Command_Not_Found" true).logged = ["boom"] := by
  have h := C7_dispatch_client_callback
    [("message_command_not_found", [.ok, .err "boom"])]
    "Message_Command_Not_Found" "MESSAGE_COMMAND_NOT_FOUND" true
    [.ok, .err "boom"] (by decide) (by decide)
  exact ⟨h.1, h.2.1, (h.2.2.1 rfl).1, ((h.2.2.1 rfl).2).trans rfl⟩

/-- C9: for every string value and every mention pattern,
`_BaseSnowflakeParser.match_id` yields `Snowflake(value)` when the value is
entirely digits, else a snowflake built from the pattern's first capture when
one exists, and otherwise raises `ValueError` — a total trichotomy with no
partial result. -/
theorem C9_match_id_trichotomy (findCapture : String → Option String)
    (value : String) :
    (Tanjun.isPyDigit value = true
      ∧ Tanjun.match_id findCapture value = .ok (Tanjun.digitsToNat value))
    ∨ (Tanjun.isPyDigit value = false
      ∧ ∃ d, findCapture value = some d
        ∧ Tanjun.match_id findCapture value = .ok (Tanjun.digitsToNat d))
    ∨ (Tanjun.isPyDigit value = false
      ∧ findCapture value = none
      ∧ Tanjun.match_id findCapture value =
          .error "No valid mention or ID found") := by
  by_cases h : Tanjun.isPyDigit value = true
  · exact Or.inl ⟨h, by simp [Tanjun.match_id, h]⟩
  · have h' : Tanjun.isPyDigit value = false := by simpa using h
    cases hc : findCapture value with
    | some d =>
      exact Or.inr (Or.inl ⟨h', d, rfl, by simp [Tanjun.match_id, h', hc]⟩)
    | none =>
      exact Or.inr (Or.inr ⟨h', rfl, by simp [Tanjun.match_id, h', hc]⟩)
